import Mathlib

/-!
# Verification of the DreamLuckin chat-record analysis pipeline

Shallow embedding of the core of the `yexsx/DreamLuckin` repository:

* `src/chat_analyzer/chat_record_analyzer.py` — the analysis pipeline
  (`ChatRecordAnalyzer`): contact mapping, context backtracking and
  display-name normalization;
* `src/services/base/lucky_base_db_service_async.py` — the async
  connection pool (`LuckyDBPoolServiceAsync`);
* `src/services/impl/chat_record_db_service_impl.py` — the chat-record DB
  service (`ChatRecordDBService`);
* `src/exceptions/*.py` — the error taxonomy.

Python integers are modelled as `Int`, Python strings as `String`
(`\w` of the `re` module is modelled by its ASCII fragment, which covers
every string appearing in the claims), dicts as association lists with
insertion-order overwrite semantics, and exceptions as `Except`.
-/

namespace DreamLuckin

/-! ## Error taxonomy (src/exceptions) -/

/-- Errors raised by the embedded code.  `attributeError` models Python's
built-in `AttributeError` (raised when an undefined attribute such as a
missing classmethod is looked up); the others model the classes of
`src/exceptions/db_exceptions.py` and `src/exceptions/stat_exception.py`. -/
inductive PyError where
  | attributeError
  | dbServiceNotPreloaded
  | dbPreloadFailed
  | dbPoolExhausted (max_connections : Nat)
  | contactNotFound (target_value : List String)
  deriving Repr, DecidableEq

/-! ## Candidate context ids (`ChatRecordAnalyzer._calculate_backtrack_ids`)

For each core `local_id`, the Python loop builds
`front_id_list = [r-1, r-2, ..., r-F]` keeping only ids `> 0`, then sorts it
ascending, and `last_id_list = [r+1, ..., r+L]`, then sorts it ascending.
The `if context_front_limit > 0` guard of the source is redundant
(`range 1 (0+1)` is empty) and is absorbed by `List.range`. -/

/-- Front candidate ids of one core record: the loop
`for i in range(1, context_front_limit + 1)` appending `core_local_id - i`
when positive, followed by `front_id_list.sort()`. -/
def calc_front_ids (context_front_limit : Nat) (core_local_id : Int) : List Int :=
  (((List.range context_front_limit).map
      (fun (i : Nat) => core_local_id - ((i : Int) + 1))).filter
      (fun front_id => decide (0 < front_id))).insertionSort (· ≤ ·)

/-- Last (following) candidate ids of one core record: the loop
`for i in range(1, context_end_limit + 1)` appending `core_local_id + i`,
followed by `last_id_list.sort()`. -/
def calc_last_ids (context_end_limit : Nat) (core_local_id : Int) : List Int :=
  (((List.range context_end_limit).map
      (fun (i : Nat) => core_local_id + ((i : Int) + 1)))).insertionSort (· ≤ ·)

/-- Stated form of the claim's preceding window: the ascending enumeration
`r-F, r-F+1, ..., r-1` with ids `≤ 0` dropped (written from the claim's
words, to be compared with `calc_front_ids`). -/
def claim_front_window (F : Nat) (r : Int) : List Int :=
  ((List.range F).map (fun (i : Nat) => r - (F : Int) + (i : Int))).filter
    (fun x => decide (0 < x))

/-- Stated form of the claim's following window: the ascending enumeration
`r+1, ..., r+L` (written from the claim's words). -/
def claim_last_window (L : Nat) (r : Int) : List Int :=
  (List.range L).map (fun (i : Nat) => r + 1 + (i : Int))

/-! Auxiliary permutation/sortedness lemmas. -/

theorem range_map_sub_perm (F : Nat) (r : Int) :
    ((List.range F).map (fun (i : Nat) => r - ((i : Int) + 1))).Perm
      ((List.range F).map (fun (i : Nat) => r - (F : Int) + (i : Int))) := by
  induction F with
  | zero => simp
  | succ n ih =>
    have hL : (List.range (n + 1)).map (fun (i : Nat) => r - ((i : Int) + 1))
        = (List.range n).map (fun (i : Nat) => r - ((i : Int) + 1))
            ++ [r - ((n : Int) + 1)] := by
      rw [List.range_succ, List.map_append]
      simp
    have hR : (List.range (n + 1)).map (fun (i : Nat) => r - ((n + 1 : Nat) : Int) + (i : Int))
        = (r - ((n : Int) + 1))
            :: (List.range n).map (fun (i : Nat) => r - (n : Int) + (i : Int)) := by
      rw [List.range_succ_eq_map, List.map_cons, List.map_map]
      refine List.cons_eq_cons.mpr ⟨by push_cast; ring, ?_⟩
      apply List.map_congr_left
      intro a _
      simp only [Function.comp_apply]
      push_cast
      ring
    rw [hL, hR]
    exact (List.perm_append_singleton _ _).trans (List.Perm.cons _ ih)

theorem claim_front_window_sorted (F : Nat) (r : Int) :
    (claim_front_window F r).Sorted (· ≤ ·) := by
  apply List.Sorted.filter
  apply List.Pairwise.map (R := (· < ·)) (S := (· ≤ ·))
  · intro a b hab
    omega
  · exact List.pairwise_lt_range F

theorem calc_front_ids_eq_claim (F : Nat) (r : Int) :
    calc_front_ids F r = claim_front_window F r := by
  refine List.eq_of_perm_of_sorted (r := (· ≤ ·)) ?_ ?_ (claim_front_window_sorted F r)
  · exact (List.perm_insertionSort _ _).trans
      (List.Perm.filter _ (range_map_sub_perm F r))
  · exact List.sorted_insertionSort _ _

theorem claim_last_window_sorted (L : Nat) (r : Int) :
    (claim_last_window L r).Sorted (· ≤ ·) := by
  apply List.Pairwise.map (R := (· < ·)) (S := (· ≤ ·))
  · intro a b hab
    omega
  · exact List.pairwise_lt_range L

theorem calc_last_ids_eq_claim (L : Nat) (r : Int) :
    calc_last_ids L r = claim_last_window L r := by
  have hmap : (List.range L).map (fun (i : Nat) => r + ((i : Int) + 1))
      = claim_last_window L r := by
    apply List.map_congr_left
    intro a _
    ring
  refine List.eq_of_perm_of_sorted (r := (· ≤ ·)) ?_ ?_ (claim_last_window_sorted L r)
  · exact (hmap ▸ List.perm_insertionSort _ _ :
      (calc_last_ids L r).Perm (claim_last_window L r))
  · exact List.sorted_insertionSort _ _

/-! ## Records and the context-backtracking stage
(`ChatRecordAnalyzer._backtrack_context`,
`ChatRecordAnalyzer._get_and_convert_context_records`) -/

/-- A raw row of a `Msg_<md5>` table as returned by a store query
(`local_id, message_content, real_sender_id, create_time`; `local_type`
is carried so the content-type filter `local_type = 1` of the SQL can be
modelled). -/
structure RawMsgRow where
  local_id : Int
  message_content : String
  real_sender_id : Int
  create_time : Int
  local_type : Int
  deriving Repr, DecidableEq

/-- `ChatRecordCore` of `src/chat_analyzer/analyzer_models.py` (the
`create_time_format` field is derived from `create_time` and carries no
extra information). -/
structure ChatRecordCore where
  local_id : Int
  message_content : String
  real_sender_id : Int
  create_time : Int
  deriving Repr, DecidableEq

/-- Conversion of a raw row into a `ChatRecordCore`, as done inside
`_get_and_convert_context_records`. -/
def convertRaw (raw : RawMsgRow) : ChatRecordCore :=
  { local_id := raw.local_id
    message_content := raw.message_content
    real_sender_id := raw.real_sender_id
    create_time := raw.create_time }

/-- The classmethods defined on `ChatRecordDBService`
(src/services/impl/chat_record_db_service_impl.py) together with those it
inherits from `LuckyDBPoolServiceAsync`
(src/services/base/lucky_base_db_service_async.py). -/
def chatRecordDBServiceMethods : List String :=
  ["_test_db_connection", "check_tables_exist",
   "get_chat_records_by_phrase_and_time",
   "get_batch_context_records_by_local_ids",
   "init_pool", "_create_connection", "get_connection", "release_connection",
   "is_pool_initialized", "close_pool", "acquire_connection"]

/-- The `ChatRecordDBService` methods the analyzer pipeline
(src/chat_analyzer/chat_record_analyzer.py) actually invokes:
`check_tables_exist` (line 152), `get_chat_records_by_phrase_and_time`
(line 227) and `get_batch_records_by_local_ids` (line 361). -/
def analyzerInvokedDBServiceMethods : List String :=
  ["check_tables_exist", "get_chat_records_by_phrase_and_time",
   "get_batch_records_by_local_ids"]

/-- A context-lookup backend: table name and id list to raw rows (or a
raised error). -/
def FetchFn : Type :=
  String → List Int → Except PyError (List RawMsgRow)

/-- The lookup `_get_and_convert_context_records` actually performs:
`ChatRecordDBService.get_batch_records_by_local_ids(...)`.  Python resolves
the attribute on the class before calling it; the name is not among the
defined classmethods, so the lookup raises `AttributeError` (the `then`
branch is dead code — it would be taken only if the method were defined). -/
def fetch_get_batch_records_by_local_ids : FetchFn := fun _ _ =>
  if chatRecordDBServiceMethods.contains "get_batch_records_by_local_ids" then
    Except.ok []
  else
    Except.error PyError.attributeError

/-- The stored rows of each table of the chat archive. -/
def Storage : Type :=
  String → List RawMsgRow

/-- A working batched lookup with the SQL shape used by the repository's
batch queries (`SELECT ... WHERE local_type = 1 AND local_id IN (...)`,
rows in stored order).  Used to reason about the candidate computation and
existence filtering independently of the missing-method failure. -/
def fetchFromStorage (storage : Storage) : FetchFn := fun table_name ids =>
  Except.ok ((storage table_name).filter
    (fun row => decide (row.local_type = 1) && ids.contains row.local_id))

/-- `_get_and_convert_context_records`: an empty id list returns `[]`
without touching the store; otherwise one batched lookup is issued and its
rows are converted. -/
def get_and_convert_context_records (fetch : FetchFn) (table_name : String)
    (context_ids : List Int) : Except PyError (List ChatRecordCore) :=
  if context_ids.isEmpty then Except.ok []
  else do
    let raw_records ← fetch table_name context_ids
    Except.ok (raw_records.map convertRaw)

/-- One iteration of the per-core-record loop of `_backtrack_context`: fetch
and attach the preceding context, then the following context, for one
matched `core_local_id`.  (The source reads the id lists from the maps built
by `_calculate_backtrack_ids` over the same core ids, so the lookup always
yields `calc_front_ids`/`calc_last_ids` of that id.) -/
def backtrack_table_step (fetch : FetchFn) (F L : Nat) (table_name : String)
    (acc : List (Int × List ChatRecordCore) × List (Int × List ChatRecordCore))
    (core_local_id : Int) :
    Except PyError
      (List (Int × List ChatRecordCore) × List (Int × List ChatRecordCore)) := do
  let front_context ←
    get_and_convert_context_records fetch table_name (calc_front_ids F core_local_id)
  let last_context ←
    get_and_convert_context_records fetch table_name (calc_last_ids L core_local_id)
  Except.ok (acc.1 ++ [(core_local_id, front_context)],
             acc.2 ++ [(core_local_id, last_context)])

/-- The per-table part of `_backtrack_context`: loop over all matched core
ids of one table, producing the table's front and last context maps. -/
def backtrack_table (fetch : FetchFn) (F L : Nat) (table_name : String)
    (core_ids : List Int) :
    Except PyError
      (List (Int × List ChatRecordCore) × List (Int × List ChatRecordCore)) :=
  core_ids.foldlM (backtrack_table_step fetch F L table_name) ([], [])

/-- `_backtrack_context`: loop over all tables of the process result
(table name paired with the matched core ids of that table), producing the
front and last backtracked-record maps. -/
def backtrack_context (fetch : FetchFn) (F L : Nat)
    (process_result : List (String × List Int)) :
    Except PyError
      (List (String × List (Int × List ChatRecordCore)) ×
        List (String × List (Int × List ChatRecordCore))) :=
  process_result.foldlM
    (fun acc entry => do
      let (table_front, table_last) ← backtrack_table fetch F L entry.1 entry.2
      Except.ok (acc.1 ++ [(entry.1, table_front)],
                 acc.2 ++ [(entry.1, table_last)]))
    ([], [])

/-- Store lookups `_get_and_convert_context_records` performs for one id
list: none when the list is empty, otherwise exactly one call to the batched
lookup. -/
def context_query_count (context_ids : List Int) : Nat :=
  if context_ids.isEmpty then 0 else 1

/-- Store lookups issued by `_backtrack_context` for one table: the loop
body calls `_get_and_convert_context_records` once for the front ids and
once for the last ids of every matched core record of the table. -/
def backtrack_table_query_count (F L : Nat) (core_ids : List Int) : Nat :=
  (core_ids.map (fun r =>
    context_query_count (calc_front_ids F r) +
      context_query_count (calc_last_ids L r))).sum

/-! Behaviour of the stage under the missing lookup method. -/

theorem get_and_convert_missing (table_name : String) (ids : List Int) :
    get_and_convert_context_records fetch_get_batch_records_by_local_ids
        table_name ids
      = if ids.isEmpty then Except.ok []
        else Except.error PyError.attributeError := by
  unfold get_and_convert_context_records
  by_cases h : ids.isEmpty
  · simp [h]
  · simp only [h, if_false, Bool.false_eq_true]
    rfl

theorem backtrack_table_missing_error (F L : Nat) (table_name : String) :
    ∀ (core_ids : List Int)
      (acc : List (Int × List ChatRecordCore) × List (Int × List ChatRecordCore)),
      (∃ r ∈ core_ids, calc_front_ids F r ≠ [] ∨ calc_last_ids L r ≠ []) →
      core_ids.foldlM (backtrack_table_step fetch_get_batch_records_by_local_ids
          F L table_name) acc
        = Except.error PyError.attributeError := by
  intro core_ids
  induction core_ids with
  | nil => intro acc h; obtain ⟨r, hr, _⟩ := h; cases hr
  | cons r rs ih =>
    intro acc h
    rw [List.foldlM_cons]
    by_cases hf : calc_front_ids F r = []
    · by_cases hl : calc_last_ids L r = []
      · have hstep : backtrack_table_step fetch_get_batch_records_by_local_ids
            F L table_name acc r
            = Except.ok (acc.1 ++ [(r, [])], acc.2 ++ [(r, [])]) := by
          unfold backtrack_table_step
          rw [get_and_convert_missing, get_and_convert_missing]
          simp only [hf, hl, List.isEmpty_nil, if_true]
          rfl
        rw [hstep]
        show rs.foldlM _ _ = _
        apply ih
        obtain ⟨r', hr', hne⟩ := h
        rcases List.mem_cons.mp hr' with heq | hmem
        · subst heq
          rcases hne with hne | hne
          · exact absurd hf hne
          · exact absurd hl hne
        · exact ⟨r', hmem, hne⟩
      · have hstep : backtrack_table_step fetch_get_batch_records_by_local_ids
            F L table_name acc r = Except.error PyError.attributeError := by
          unfold backtrack_table_step
          rw [get_and_convert_missing, get_and_convert_missing]
          have h1 : (calc_front_ids F r).isEmpty = true := by simp [hf]
          have h2 : (calc_last_ids L r).isEmpty = false := by
            simp [List.isEmpty_iff, hl]
          simp only [h1, h2, if_true, Bool.false_eq_true, if_false]
          rfl
        rw [hstep]
        rfl
    · have hstep : backtrack_table_step fetch_get_batch_records_by_local_ids
          F L table_name acc r = Except.error PyError.attributeError := by
        unfold backtrack_table_step
        rw [get_and_convert_missing]
        have h1 : (calc_front_ids F r).isEmpty = false := by
          simp [List.isEmpty_iff, hf]
        simp only [h1, Bool.false_eq_true, if_false]
        rfl
      rw [hstep]
      rfl

theorem backtrack_table_missing_ok (F L : Nat) (table_name : String) :
    ∀ (core_ids : List Int)
      (acc : List (Int × List ChatRecordCore) × List (Int × List ChatRecordCore)),
      (∀ r ∈ core_ids, calc_front_ids F r = [] ∧ calc_last_ids L r = []) →
      ∃ res, core_ids.foldlM (backtrack_table_step
          fetch_get_batch_records_by_local_ids F L table_name) acc
        = Except.ok res := by
  intro core_ids
  induction core_ids with
  | nil => intro acc _; exact ⟨acc, rfl⟩
  | cons r rs ih =>
    intro acc h
    obtain ⟨hf, hl⟩ := h r (List.mem_cons_self r rs)
    rw [List.foldlM_cons]
    have hstep : backtrack_table_step fetch_get_batch_records_by_local_ids
        F L table_name acc r
        = Except.ok (acc.1 ++ [(r, [])], acc.2 ++ [(r, [])]) := by
      unfold backtrack_table_step
      rw [get_and_convert_missing, get_and_convert_missing]
      simp only [hf, hl, List.isEmpty_nil, if_true]
      rfl
    rw [hstep]
    exact ih _ (fun r' hr' => h r' (List.mem_cons_of_mem r hr'))

theorem backtrack_context_missing_error (F L : Nat) :
    ∀ (process_result : List (String × List Int))
      (acc : List (String × List (Int × List ChatRecordCore)) ×
        List (String × List (Int × List ChatRecordCore))),
      (∃ e ∈ process_result, ∃ r ∈ e.2,
          calc_front_ids F r ≠ [] ∨ calc_last_ids L r ≠ []) →
      process_result.foldlM
        (fun acc entry => do
          let (table_front, table_last) ←
            backtrack_table fetch_get_batch_records_by_local_ids F L entry.1 entry.2
          Except.ok (acc.1 ++ [(entry.1, table_front)],
                     acc.2 ++ [(entry.1, table_last)]))
        acc
        = Except.error PyError.attributeError := by
  intro process_result
  induction process_result with
  | nil => intro acc h; obtain ⟨e, he, _⟩ := h; cases he
  | cons e es ih =>
    intro acc h
    rw [List.foldlM_cons]
    by_cases hc : ∃ r ∈ e.2, calc_front_ids F r ≠ [] ∨ calc_last_ids L r ≠ []
    · have htab : backtrack_table fetch_get_batch_records_by_local_ids F L e.1 e.2
          = Except.error PyError.attributeError :=
        backtrack_table_missing_error F L e.1 e.2 ([], []) hc
      simp only [backtrack_table] at htab
      simp [backtrack_table, htab, Except.bind]
      rfl
    · push_neg at hc
      obtain ⟨res, hres⟩ :=
        backtrack_table_missing_ok F L e.1 e.2 ([], []) hc
      obtain ⟨res1, res2⟩ := res
      have htab : backtrack_table fetch_get_batch_records_by_local_ids F L e.1 e.2
          = Except.ok (res1, res2) := hres
      rw [show (do
            let (table_front, table_last) ←
              backtrack_table fetch_get_batch_records_by_local_ids F L e.1 e.2
            Except.ok (acc.1 ++ [(e.1, table_front)], acc.2 ++ [(e.1, table_last)]) :
          Except PyError _)
          = Except.ok (acc.1 ++ [(e.1, res1)], acc.2 ++ [(e.1, res2)]) from by
        rw [htab]
        rfl]
      apply ih
      obtain ⟨e', he', hr⟩ := h
      rcases List.mem_cons.mp he' with heq | hmem
      · subst heq
        obtain ⟨r, hrmem, hne⟩ := hr
        obtain ⟨h1, h2⟩ := hc r hrmem
        rcases hne with hne | hne
        · exact absurd h1 hne
        · exact absurd h2 hne
      · exact ⟨e', hmem, hr⟩

/-- The per-table deduplicated union of preceding candidate ids (the
"batched query set" described by the spec's backtracking step 3), built
from the per-record candidate lists of `_calculate_backtrack_ids`. -/
def batched_front_candidates (F : Nat) (core_ids : List Int) : List Int :=
  ((core_ids.map (calc_front_ids F)).flatten).dedup

/-- The per-table deduplicated union of following candidate ids. -/
def batched_last_candidates (L : Nat) (core_ids : List Int) : List Int :=
  ((core_ids.map (calc_last_ids L)).flatten).dedup

/-- Concrete archive for the spec's worked example: table `Msg_T` holds
text rows 8, 9, 10, 12 and 13 — row 11 is absent from storage. -/
def c4_storage : Storage := fun table_name =>
  if table_name = "Msg_T" then
    [{ local_id := 8, message_content := "m8", real_sender_id := 1,
       create_time := 100, local_type := 1 },
     { local_id := 9, message_content := "m9", real_sender_id := 1,
       create_time := 101, local_type := 1 },
     { local_id := 10, message_content := "m10", real_sender_id := 1,
       create_time := 102, local_type := 1 },
     { local_id := 12, message_content := "m12", real_sender_id := 1,
       create_time := 104, local_type := 1 },
     { local_id := 13, message_content := "m13", real_sender_id := 1,
       create_time := 105, local_type := 1 }]
  else []

/-! ## Display-name normalization
(`ChatRecordAnalyzer._replace_wxid_content`) -/

/-- ASCII fragment of the regex class `\w` (every string appearing in the
claims is ASCII; Python's full `\w` additionally matches non-ASCII word
characters). -/
def isWordChar (c : Char) : Bool :=
  c.isAlphanum || c = '_'

/-- Longest run of word characters at the head of the list, and the
remaining suffix — the greedy `\w+` step of the regex engine. -/
def wordRun : List Char → List Char × List Char
  | [] => ([], [])
  | c :: rest =>
    if isWordChar c then
      let p := wordRun rest
      (c :: p.1, p.2)
    else ([], c :: rest)

/-- Python `re.match(r'^(wxid_\w+):\n?', content)`: on success returns
(group 1, group 0) — the sender identifier and the full matched text,
which includes the trailing newline when one is present. -/
def wxid_match (content : String) : Option (String × String) :=
  match content.toList with
  | 'w' :: 'x' :: 'i' :: 'd' :: '_' :: rest =>
    let p := wordRun rest
    if p.1.isEmpty then none
    else
      match p.2 with
      | ':' :: '\n' :: _ =>
        some (('w' :: 'x' :: 'i' :: 'd' :: '_' :: p.1).asString,
              ('w' :: 'x' :: 'i' :: 'd' :: '_' :: p.1 ++ [':', '\n']).asString)
      | ':' :: _ =>
        some (('w' :: 'x' :: 'i' :: 'd' :: '_' :: p.1).asString,
              ('w' :: 'x' :: 'i' :: 'd' :: '_' :: p.1 ++ [':']).asString)
      | _ => none
  | _ => none

/-- `mapping.get(username)` on the Python dict (modelled as an association
list without duplicate keys). -/
def dictGet (mapping : List (String × String)) (k : String) : Option String :=
  (mapping.find? (fun p => p.1 == k)).map (fun p => p.2)

/-- The interpolation `f'{nickname}'` applied to the result of the dict
lookup: Python renders `None` as the four-character string "None". -/
def pyStrOfOption : Option String → String
  | none => "None"
  | some s => s

/-- Python `s.replace(old, new, 1)` on character lists: replace the
leftmost occurrence of `old` (an empty `old` matches at position 0). -/
def replaceFirstChars (old new : List Char) : List Char → List Char
  | [] => if old.isPrefixOf ([] : List Char) then new else []
  | c :: rest =>
    if old.isPrefixOf (c :: rest) then new ++ (c :: rest).drop old.length
    else c :: replaceFirstChars old new rest

/-- Python `s.replace(old, new, 1)` on strings. -/
def str_replace_first (s old new : String) : String :=
  (replaceFirstChars old.toList new.toList s.toList).asString

/-- `ChatRecordAnalyzer._replace_wxid_content` on one record: rows authored
by the primary user (`real_sender_id == 1`) are skipped, a text without the
`wxid_...:` prefix is left unchanged; otherwise the matched prefix is
replaced by `f'{nickname}:'` with `nickname = mapping.get(username)`.
Note the source has no early return when the lookup misses — it only logs
`未找到wxid对应的昵称映射` and falls through to the replacement. -/
def replace_wxid_content (record : ChatRecordCore)
    (mapping : List (String × String)) : ChatRecordCore :=
  if record.real_sender_id = 1 then record
  else
    match wxid_match record.message_content with
    | none => record
    | some (username, original) =>
      let nickname := dictGet mapping username
      let new_content :=
        str_replace_first record.message_content original
          (pyStrOfOption nickname ++ ":")
      { record with message_content := new_content }

/-- A group-chat record authored by someone other than the primary user,
whose text starts with an identifier prefix that has no entry in the
identifier-to-display-name mapping. -/
def c5_record : ChatRecordCore :=
  { local_id := 7, message_content := "wxid_abc123:\nhello",
    real_sender_id := 2, create_time := 200 }

/-- The record of the spec's worked rewrite example. -/
def c6_record : ChatRecordCore :=
  { local_id := 8, message_content := "wxid_abc123:\nhello",
    real_sender_id := 2, create_time := 201 }

/-- The identifier-to-display-name mapping of the worked example. -/
def c6_mapping : List (String × String) :=
  [("wxid_abc123", "Alice")]

/-! ## The async connection pool
(`LuckyDBPoolServiceAsync` of src/services/base/lucky_base_db_service_async.py)

The pool is an `asyncio.Queue` of raw connections plus class-level
configuration.  The model below is the single-task view: `await
asyncio.wait_for(cls._pool.get(), timeout=3)` returns the head of the free
queue when one is present and raises `asyncio.TimeoutError` when the queue
stays empty for the whole timeout. -/

/-- Outcome of the liveness probe on a given connection.
`ChatRecordDBService._test_db_connection` runs
`SELECT 1 FROM sqlite_sequence LIMIT 1`: it can return `True` (valid),
return `False` (`sqlite_sequence` empty — invalid), or raise, in which case
the implementation wraps the failure in `DBPreloadFailedError` and
re-raises it. -/
inductive ProbeResult where
  | valid
  | invalid
  | raises
  deriving Repr, DecidableEq

/-- A physical connection handle; `probe` is the outcome its liveness check
produces. -/
structure Conn where
  id : Nat
  probe : ProbeResult
  deriving Repr, DecidableEq

/-- Pool state: the contents of the free queue (front of the list is the
next handle to be dequeued) and the class-level configuration. -/
structure PoolState where
  free : List Conn
  max_connections : Nat
  min_connections : Nat
  initialized : Bool
  deriving Repr, DecidableEq

/-- `get_connection`.  `create` models `_create_connection()`: `Except.ok`
with a fresh handle when opening succeeds (the result of the self-test run
inside `_create_connection` is ignored by the source), `Except.error` when
it raises `DBPreloadFailedError`.  The `try` of the source catches only
`asyncio.TimeoutError`, so a probe that raises propagates its
`DBPreloadFailedError` to the caller. -/
def get_connection (create : Except Unit Conn) (st : PoolState) :
    Except PyError (Conn × PoolState) :=
  if st.initialized = false then Except.error PyError.dbServiceNotPreloaded
  else
    match st.free with
    | [] => Except.error (PyError.dbPoolExhausted st.max_connections)
    | c :: rest =>
      match c.probe with
      | ProbeResult.valid => Except.ok (c, { st with free := rest })
      | ProbeResult.invalid =>
        match create with
        | Except.ok new_conn => Except.ok (new_conn, { st with free := rest })
        | Except.error _ => Except.error PyError.dbPreloadFailed
      | ProbeResult.raises => Except.error PyError.dbPreloadFailed

/-- The close-then-self-heal tail of `release_connection`: the released
handle is closed (dropped), and when the queue size is below
`min_connections` exactly one new connection is created and enqueued. -/
def close_and_heal (create : Except Unit Conn) (st : PoolState) :
    Except PyError PoolState :=
  if st.free.length < st.min_connections then
    match create with
    | Except.ok n => Except.ok { st with free := st.free ++ [n] }
    | Except.error _ => Except.error PyError.dbPreloadFailed
  else Except.ok st

/-- `release_connection`: a null handle is ignored with a warning; a handle
whose probe raises propagates the wrapped failure; a valid handle is
re-enqueued when the queue is not full (`qsize < maxsize`); otherwise the
handle is closed and the pool self-heals by at most one fresh handle. -/
def release_connection (create : Except Unit Conn) (st : PoolState)
    (conn : Option Conn) : Except PyError PoolState :=
  if st.initialized = false then Except.error PyError.dbServiceNotPreloaded
  else
    match conn with
    | none => Except.ok st
    | some c =>
      match c.probe with
      | ProbeResult.raises => Except.error PyError.dbPreloadFailed
      | ProbeResult.valid =>
        if st.free.length < st.max_connections then
          Except.ok { st with free := st.free ++ [c] }
        else close_and_heal create st
      | ProbeResult.invalid => close_and_heal create st

/-- An initialized pool whose next free handle has a probe that raises. -/
def c7_state : PoolState :=
  { free := [{ id := 0, probe := ProbeResult.raises }],
    max_connections := 10, min_connections := 5, initialized := true }

/-- A fresh, valid replacement handle. -/
def c7_fresh : Conn := { id := 1, probe := ProbeResult.valid }

/-- An initialized pool whose next free handle reports invalid. -/
def c7_invalid_state : PoolState :=
  { free := [{ id := 2, probe := ProbeResult.invalid }],
    max_connections := 10, min_connections := 5, initialized := true }

/-- An initialized pool holding one free handle whose probe raises. -/
def c8_state : PoolState :=
  { free := [{ id := 3, probe := ProbeResult.raises }],
    max_connections := 7, min_connections := 2, initialized := true }

/-- A fresh handle available to `_create_connection` in the C8 scenarios. -/
def c8_fresh : Conn := { id := 4, probe := ProbeResult.valid }

/-- An initialized pool whose free queue is empty for the whole acquire
timeout. -/
def c8_empty_state : PoolState :=
  { free := [], max_connections := 7, min_connections := 2,
    initialized := true }

/-- An initialized pool with an empty free queue and a floor of 3. -/
def c9_state : PoolState :=
  { free := [], max_connections := 5, min_connections := 3,
    initialized := true }

/-- An invalid handle being released. -/
def c9_conn : Conn := { id := 10, probe := ProbeResult.invalid }

/-- The fresh handle the self-heal step opens. -/
def c9_fresh : Conn := { id := 11, probe := ProbeResult.valid }

/-! ## Contact resolution
(`ChatRecordAnalyzer._associate_mapping` together with
`ContactDBService.get_contacts`) -/

/-- `ContactType` of src/chat_analyzer/analyzer_models.py. -/
inductive ContactType where
  | friend
  | group
  | group_friend
  | unknown
  deriving Repr, DecidableEq

/-- `ContactType.get_type_by_local_type_id`: 1, 2 and 3 map to the three
known categories, everything else falls back to `unknown`. -/
def get_type_by_local_type_id (local_type : Int) : ContactType :=
  if local_type = 1 then ContactType.friend
  else if local_type = 2 then ContactType.group
  else if local_type = 3 then ContactType.group_friend
  else ContactType.unknown

/-- A row of the `contact` table as returned by
`ContactDBService.get_contacts` (columns `username, local_type, remark,
nick_name`; a SQL `NULL` is modelled as the empty string, which has the
same Python truthiness). -/
structure ContactRow where
  username : String
  local_type : Int
  remark : String
  nick_name : String
  deriving Repr, DecidableEq

/-- `ContactRecord` of src/chat_analyzer/analyzer_models.py. -/
structure ContactRecord where
  username : String
  nickname : String
  type : ContactType
  deriving Repr, DecidableEq

/-- Python's `a or b` on strings (falsy = empty). -/
def pyOr (a b : String) : String :=
  if a = "" then b else a

/-- The `matched_names` set of `_associate_mapping`: the stripped truthy
`remark` and `nick_name` values of every returned row. -/
def matched_names (contact_result : List ContactRow) : List String :=
  (contact_result.map (fun info =>
    (if info.remark ≠ "" then [info.remark.trim] else []) ++
      (if info.nick_name ≠ "" then [info.nick_name.trim] else []))).flatten

/-- The `unmatched_config_values` list of `_associate_mapping`: configured
targets whose stripped value matches no returned row; they are only logged
as warnings. -/
def unmatched_config_values (target_value : List String)
    (contact_result : List ContactRow) : List String :=
  target_value.filter
    (fun val => !((matched_names contact_result).contains val.trim))

/-- The `ContactRecord` built for one returned row: nickname falls back
from `remark` to `nick_name` to the placeholder, and the category is
derived from `local_type`. -/
def mk_contact_record (row : ContactRow) : ContactRecord :=
  { username := row.username
    nickname := pyOr row.remark (pyOr row.nick_name "未知联系人")
    type := get_type_by_local_type_id row.local_type }

/-- The mapping-cache entry for one row: the physical table name
`Msg_<md5(username)>` (the digest function is passed in as `md5hex`)
paired with the contact record. -/
def mk_contact_entry (md5hex : String → String) (row : ContactRow) :
    String × ContactRecord :=
  ("Msg_" ++ md5hex row.username, mk_contact_record row)

/-- Assignment into a Python dict modelled as an association list:
overwrite in place when the key exists, append otherwise. -/
def dict_insert (d : List (String × ContactRecord)) (k : String)
    (v : ContactRecord) : List (String × ContactRecord) :=
  if d.any (fun q => q.1 == k) then
    d.map (fun q => if q.1 == k then (k, v) else q)
  else d ++ [(k, v)]

/-- `_associate_mapping`: zero returned rows raise
`ContactNotFoundError(target_value)`; otherwise every returned row is
entered into the mapping cache (duplicate table names overwrite), and the
unmatched configured values are collected for warning logs. -/
def associate_mapping (md5hex : String → String) (target_value : List String)
    (contact_result : List ContactRow) :
    Except PyError (List (String × ContactRecord) × List String) :=
  if contact_result.length = 0 then
    Except.error (PyError.contactNotFound target_value)
  else
    Except.ok
      (contact_result.foldl (fun acc row =>
        dict_insert acc ("Msg_" ++ md5hex row.username)
          (mk_contact_record row)) [],
       unmatched_config_values target_value contact_result)

/-- One contact row returned by the lookup query in the witness run. -/
def c10_row : ContactRow :=
  { username := "u1", local_type := 1, remark := "Alice", nick_name := "Al" }

theorem dict_insert_mem (d : List (String × ContactRecord)) (k : String)
    (v : ContactRecord) :
    ∀ p ∈ dict_insert d k v, p = (k, v) ∨ p ∈ d := by
  intro p hp
  unfold dict_insert at hp
  by_cases h : d.any (fun q => q.1 == k)
  · rw [if_pos h] at hp
    obtain ⟨q, hq, hqe⟩ := List.mem_map.mp hp
    by_cases hk : q.1 == k
    · rw [if_pos hk] at hqe
      exact Or.inl hqe.symm
    · rw [if_neg hk] at hqe
      exact Or.inr (hqe ▸ hq)
  · rw [if_neg h] at hp
    rcases List.mem_append.mp hp with hmem | hmem
    · exact Or.inr hmem
    · exact Or.inl (List.mem_singleton.mp hmem)

theorem associate_fold_mem (md5hex : String → String) :
    ∀ (rows : List ContactRow) (acc : List (String × ContactRecord)),
      ∀ p ∈ rows.foldl (fun acc row =>
          dict_insert acc ("Msg_" ++ md5hex row.username)
            (mk_contact_record row)) acc,
        p ∈ acc ∨ ∃ row ∈ rows, p = mk_contact_entry md5hex row := by
  intro rows
  induction rows with
  | nil => intro acc p hp; exact Or.inl hp
  | cons row rows ih =>
    intro acc p hp
    rw [List.foldl_cons] at hp
    rcases ih _ p hp with hmem | hex
    · rcases dict_insert_mem _ _ _ p hmem with he | hmem2
      · exact Or.inr ⟨row, List.mem_cons_self row rows, he⟩
      · exact Or.inl hmem2
    · obtain ⟨row', hr', he⟩ := hex
      exact Or.inr ⟨row', List.mem_cons_of_mem row hr', he⟩

end DreamLuckin

/-- C3: for every matched row_id `r` and window sizes `F` (context_front_limit)
and `L` (context_end_limit), `_calculate_backtrack_ids` computes as preceding
candidates exactly the ascending enumeration of `r-F, ..., r-1` with ids
`≤ 0` dropped, and as following candidates exactly the ascending enumeration
of `r+1, ..., r+L`, before any existence filtering against stored rows. -/
theorem C3_backtrack_candidate_windows (F L : Nat) (r : Int) :
    DreamLuckin.calc_front_ids F r = DreamLuckin.claim_front_window F r ∧
      DreamLuckin.calc_last_ids L r = DreamLuckin.claim_last_window L r :=
  ⟨DreamLuckin.calc_front_ids_eq_claim F r, DreamLuckin.calc_last_ids_eq_claim L r⟩

/-- C1 (code bug): the claim (and the docstring of `_backtrack_context`
itself, "同表的核心记录一次查询") promise exactly one batched preceding and
one batched following lookup per table, independent of the match count.
The loop of `_backtrack_context` instead calls
`_get_and_convert_context_records` once per matched record and direction:
for a table with matched ids 10 and 12 and windows F = 2, L = 1 it issues
4 store lookups, not 2. -/
theorem C1_backtrack_queries_per_match_not_per_table :
    DreamLuckin.backtrack_table_query_count 2 1 [10, 12] = 4 ∧
      DreamLuckin.backtrack_table_query_count 2 1 [10, 12] ≠ 2 := by
  constructor <;> decide

/-- C2: `_get_and_convert_context_records` invokes
`ChatRecordDBService.get_batch_records_by_local_ids`, which is defined
nowhere in the codebase, while the defined batched lookup
`get_batch_context_records_by_local_ids` is never called by the pipeline;
hence any run in which some table has a matched core record with a
non-empty candidate context-id list makes the context-backtracking stage
raise an attribute-lookup error and attach no context. -/
theorem C2_missing_batch_lookup_method :
    DreamLuckin.chatRecordDBServiceMethods.contains
        "get_batch_records_by_local_ids" = false ∧
      DreamLuckin.analyzerInvokedDBServiceMethods.contains
        "get_batch_records_by_local_ids" = true ∧
      DreamLuckin.chatRecordDBServiceMethods.contains
        "get_batch_context_records_by_local_ids" = true ∧
      DreamLuckin.analyzerInvokedDBServiceMethods.contains
        "get_batch_context_records_by_local_ids" = false ∧
      ∀ (F L : Nat) (process_result : List (String × List Int)),
        (∃ e ∈ process_result, ∃ r ∈ e.2,
            DreamLuckin.calc_front_ids F r ≠ [] ∨
              DreamLuckin.calc_last_ids L r ≠ []) →
        DreamLuckin.backtrack_context
            DreamLuckin.fetch_get_batch_records_by_local_ids F L process_result
          = Except.error DreamLuckin.PyError.attributeError := by
  refine ⟨by decide, by decide, by decide, by decide, ?_⟩
  intro F L process_result h
  exact DreamLuckin.backtrack_context_missing_error F L process_result ([], []) h

/-- Witness for C2: a run with one table whose single matched record (id 10)
has the non-empty preceding candidate list `[9]` under F = L = 1 fails with
the attribute-lookup error. -/
theorem C2_missing_batch_lookup_method_witness :
    DreamLuckin.backtrack_context
        DreamLuckin.fetch_get_batch_records_by_local_ids 1 1 [("Msg_T", [10])]
      = Except.error DreamLuckin.PyError.attributeError :=
  C2_missing_batch_lookup_method.2.2.2.2 1 1 [("Msg_T", [10])]
    ⟨("Msg_T", [10]), by decide, 10, by decide, Or.inl (by decide)⟩

/-- C4 counterexample: the claim states that for matched row_ids 10 and 12
with F = 2 the batched preceding candidate set equals 8, 9, 11 — i.e. the
union minus the matched ids themselves.  `_calculate_backtrack_ids` never
removes matched ids: 10 is a preceding candidate of 12, so the batched set
is 8, 9, 10, 11 and differs from the claimed set at 10. -/
theorem C4_batched_candidates_counterexample :
    ¬ (∀ x : Int, x ∈ DreamLuckin.batched_front_candidates 2 [10, 12] ↔
        x ∈ ([8, 9, 11] : List Int)) := by
  intro h
  have h10 : (10 : Int) ∈ ([8, 9, 11] : List Int) := (h 10).mp (by decide)
  simp at h10

/-- C4 as amended: with matches at row_ids 10 and 12 and windows F = 2,
L = 1, the per-record preceding candidates are `[8, 9]` for 10 and
`[10, 11]` for 12, so the deduplicated union is 8, 9, 10, 11 (the matched
id 10 is itself a candidate and is not removed); the union of following
candidates is 11, 13; and running the per-table backtracking against a
storage that lacks row 11 yields per-record result lists in which row 11
appears nowhere (rows absent from storage are silently dropped). -/
theorem C4_batched_candidates_amended :
    DreamLuckin.batched_front_candidates 2 [10, 12] = [8, 9, 10, 11] ∧
      DreamLuckin.batched_last_candidates 1 [10, 12] = [11, 13] ∧
      DreamLuckin.backtrack_table (DreamLuckin.fetchFromStorage
          DreamLuckin.c4_storage) 2 1 "Msg_T" [10, 12]
        = Except.ok
            ([(10, [{ local_id := 8, message_content := "m8",
                      real_sender_id := 1, create_time := 100 },
                    { local_id := 9, message_content := "m9",
                      real_sender_id := 1, create_time := 101 }]),
              (12, [{ local_id := 10, message_content := "m10",
                      real_sender_id := 1, create_time := 102 }])],
             [(10, []),
              (12, [{ local_id := 13, message_content := "m13",
                      real_sender_id := 1, create_time := 105 }])]) := by
  refine ⟨by decide, by decide, by rfl⟩

/-- C5 (code bug): a record whose text carries a raw sender-identifier
prefix with no entry in the mapping is claimed to be left completely
unchanged (and the miss logged).  `_replace_wxid_content` logs the miss but
lacks a return: it falls through and rewrites the prefix to the literal
string "None:", so the text changes from "wxid_abc123:\nhello" to
"None:hello". -/
theorem C5_unmapped_identifier_rewritten_to_None :
    (DreamLuckin.replace_wxid_content DreamLuckin.c5_record []).message_content
        = "None:hello" ∧
      (DreamLuckin.replace_wxid_content DreamLuckin.c5_record []).message_content
        ≠ DreamLuckin.c5_record.message_content := by
  constructor <;> decide

/-- C6 counterexample: on the claim's own input — text "wxid_abc123:\nhello",
identifier mapped to "Alice", record authored by someone other than the
primary user — the rewritten text is not the claimed "Alice:\nhello": the
regex consumes the newline as part of group 0 and the replacement
`f'{nickname}:'` does not restore it. -/
theorem C6_rewrite_counterexample :
    (DreamLuckin.replace_wxid_content DreamLuckin.c6_record
        DreamLuckin.c6_mapping).message_content ≠ "Alice:\nhello" := by
  decide

/-- C6 as amended: the rewrite produces exactly "Alice:hello" — the matched
prefix including its optional newline is replaced by "Alice:". -/
theorem C6_rewrite_amended :
    (DreamLuckin.replace_wxid_content DreamLuckin.c6_record
        DreamLuckin.c6_mapping).message_content = "Alice:hello" := by
  decide

/-- C7 counterexample: the claim says a failing liveness probe is treated
only as "handle invalid" and is never propagated to the acquire caller as a
fatal pool error.  At an initialized pool whose dequeued handle's probe
raises, and although a fresh replacement could be opened, `get_connection`
propagates the wrapped `DBPreloadFailedError` to the caller instead of
replacing the handle. -/
theorem C7_probe_failure_propagates_counterexample :
    DreamLuckin.get_connection (Except.ok DreamLuckin.c7_fresh)
        DreamLuckin.c7_state
      = Except.error DreamLuckin.PyError.dbPreloadFailed := by
  rfl

/-- C7 as amended: a probe that completes and reports the handle invalid is
handled transparently — the handle is discarded and a freshly opened one is
returned in its place; but a probe that raises has its failure wrapped in
`DBPreloadFailedError` and propagated to the acquire caller (the `except`
clause of `get_connection` catches only `asyncio.TimeoutError`). -/
theorem C7_probe_handling_amended (create : Except Unit DreamLuckin.Conn)
    (st : DreamLuckin.PoolState) (c n : DreamLuckin.Conn)
    (rest : List DreamLuckin.Conn)
    (hinit : st.initialized = true) (hfree : st.free = c :: rest) :
    (c.probe = DreamLuckin.ProbeResult.invalid → create = Except.ok n →
      DreamLuckin.get_connection create st
        = Except.ok (n, { st with free := rest })) ∧
    (c.probe = DreamLuckin.ProbeResult.raises →
      DreamLuckin.get_connection create st
        = Except.error DreamLuckin.PyError.dbPreloadFailed) := by
  obtain ⟨free, maxc, minc, init⟩ := st
  simp only at hinit hfree
  subst hinit hfree
  constructor
  · intro hp hc
    subst hc
    simp [DreamLuckin.get_connection, hp]
  · intro hp
    simp [DreamLuckin.get_connection, hp]

/-- Witness for C7: at the concrete invalid-probe pool, acquire returns the
fresh replacement handle. -/
theorem C7_probe_handling_amended_witness :
    DreamLuckin.get_connection (Except.ok DreamLuckin.c7_fresh)
        DreamLuckin.c7_invalid_state
      = Except.ok (DreamLuckin.c7_fresh,
          { DreamLuckin.c7_invalid_state with free := [] }) :=
  (C7_probe_handling_amended (Except.ok DreamLuckin.c7_fresh)
      DreamLuckin.c7_invalid_state
      { id := 2, probe := DreamLuckin.ProbeResult.invalid }
      DreamLuckin.c7_fresh [] rfl rfl).1 rfl rfl

/-- C8 counterexample: the claim promises that whenever a handle is obtained
from the free queue within the timeout, a valid handle is returned to the
caller.  At `c8_state` a handle is dequeued immediately (the queue is
non-empty) but its probe raises, so the acquire call fails with
`DBPreloadFailedError` and no handle at all is returned. -/
theorem C8_acquire_counterexample :
    ¬ ((DreamLuckin.c8_state.free = [] →
          DreamLuckin.get_connection (Except.ok DreamLuckin.c8_fresh)
              DreamLuckin.c8_state
            = Except.error (DreamLuckin.PyError.dbPoolExhausted
                DreamLuckin.c8_state.max_connections)) ∧
        (DreamLuckin.c8_state.free ≠ [] →
          ∃ p, DreamLuckin.get_connection (Except.ok DreamLuckin.c8_fresh)
              DreamLuckin.c8_state = Except.ok p)) := by
  intro h
  obtain ⟨p, hp⟩ := h.2 (by decide)
  rw [show DreamLuckin.get_connection (Except.ok DreamLuckin.c8_fresh)
        DreamLuckin.c8_state
      = Except.error DreamLuckin.PyError.dbPreloadFailed from rfl] at hp
  cases hp

/-- C8 as amended: on an initialized pool, an acquire that finds the free
queue empty for the whole timeout fails with `DBPoolExhaustedError`
carrying the configured maximum connection count; an acquire that dequeues
a handle returns one provided the handle's probe does not raise and, when
the probe reports invalid, the replacement creation succeeds. -/
theorem C8_acquire_amended (create : Except Unit DreamLuckin.Conn)
    (st : DreamLuckin.PoolState) (hinit : st.initialized = true) :
    (st.free = [] →
      DreamLuckin.get_connection create st
        = Except.error (DreamLuckin.PyError.dbPoolExhausted
            st.max_connections)) ∧
    (∀ c rest, st.free = c :: rest →
      c.probe ≠ DreamLuckin.ProbeResult.raises →
      (c.probe = DreamLuckin.ProbeResult.invalid →
        ∃ n, create = Except.ok n) →
      ∃ p, DreamLuckin.get_connection create st = Except.ok p) := by
  obtain ⟨free, maxc, minc, init⟩ := st
  simp only at hinit
  subst hinit
  constructor
  · intro hempty
    simp only at hempty
    subst hempty
    rfl
  · intro c rest hfree hnr hcr
    simp only at hfree
    subst hfree
    match hp : c.probe with
    | DreamLuckin.ProbeResult.valid =>
      exact ⟨(c, ⟨rest, maxc, minc, true⟩),
        by simp [DreamLuckin.get_connection, hp]⟩
    | DreamLuckin.ProbeResult.invalid =>
      obtain ⟨n, hn⟩ := hcr hp
      subst hn
      exact ⟨(n, ⟨rest, maxc, minc, true⟩),
        by simp [DreamLuckin.get_connection, hp]⟩
    | DreamLuckin.ProbeResult.raises =>
      exact absurd hp hnr

/-- Witness for C8: an initialized pool with an empty free queue and
maximum 7 connections times out into the pool-exhausted failure carrying
that maximum. -/
theorem C8_acquire_amended_witness :
    DreamLuckin.get_connection (Except.ok DreamLuckin.c8_fresh)
        DreamLuckin.c8_empty_state
      = Except.error (DreamLuckin.PyError.dbPoolExhausted 7) :=
  (C8_acquire_amended (Except.ok DreamLuckin.c8_fresh)
      DreamLuckin.c8_empty_state rfl).1 rfl

/-- C9 counterexample: the claim states the free set never drops below
`min_connections` once a release's self-heal completes.  Releasing an
invalid handle into `c9_state` (an initialized pool with an empty free
queue, `min_connections = 3`) closes the handle and adds exactly one fresh
connection: the free set ends with a single handle, below the floor of 3. -/
theorem C9_min_size_counterexample :
    ¬ (∀ st', DreamLuckin.release_connection (Except.ok DreamLuckin.c9_fresh)
          DreamLuckin.c9_state (some DreamLuckin.c9_conn) = Except.ok st' →
        DreamLuckin.c9_state.min_connections ≤ st'.free.length) := by
  intro h
  have hle := h { DreamLuckin.c9_state with free := [DreamLuckin.c9_fresh] } rfl
  simp [DreamLuckin.c9_state] at hle

/-- C9 as amended: releasing an invalid handle never returns it to the free
set (it is closed instead); and when, after the close, the free count is
below `min_connections`, exactly one replacement handle is opened and
enqueued — which brings the count back to `min_connections` only when the
shortfall was exactly one. -/
theorem C9_release_amended (create : Except Unit DreamLuckin.Conn)
    (st : DreamLuckin.PoolState) (c : DreamLuckin.Conn)
    (hinit : st.initialized = true)
    (hinv : c.probe = DreamLuckin.ProbeResult.invalid)
    (hfresh : ∀ n, create = Except.ok n → n ≠ c)
    (hnotin : c ∉ st.free) :
    (∀ st', DreamLuckin.release_connection create st (some c) = Except.ok st' →
        c ∉ st'.free) ∧
    (st.free.length < st.min_connections → ∀ n, create = Except.ok n →
      DreamLuckin.release_connection create st (some c)
        = Except.ok { st with free := st.free ++ [n] }) := by
  obtain ⟨free, maxc, minc, init⟩ := st
  simp only at hinit hnotin ⊢
  subst hinit
  have hrel : DreamLuckin.release_connection create
      { free := free, max_connections := maxc, min_connections := minc,
        initialized := true } (some c)
      = DreamLuckin.close_and_heal create
          { free := free, max_connections := maxc, min_connections := minc,
            initialized := true } := by
    simp [DreamLuckin.release_connection, hinv]
  constructor
  · intro st' hst'
    rw [hrel] at hst'
    unfold DreamLuckin.close_and_heal at hst'
    simp only at hst'
    by_cases hlow : free.length < minc
    · rw [if_pos hlow] at hst'
      cases create with
      | ok n =>
        have hne : n ≠ c := hfresh n rfl
        cases hst'
        simp only [List.mem_append, List.mem_singleton]
        rintro (hmem | hceq)
        · exact hnotin hmem
        · exact hne hceq.symm
      | error u =>
        exact Except.noConfusion hst'
    · rw [if_neg hlow] at hst'
      cases hst'
      exact hnotin
  · intro hlow n hn
    rw [hrel]
    unfold DreamLuckin.close_and_heal
    simp only
    rw [if_pos hlow, hn]

/-- Witness for C9: releasing the concrete invalid handle into the empty
pool closes it and enqueues exactly the one fresh handle. -/
theorem C9_release_amended_witness :
    DreamLuckin.release_connection (Except.ok DreamLuckin.c9_fresh)
        DreamLuckin.c9_state (some DreamLuckin.c9_conn)
      = Except.ok { DreamLuckin.c9_state with
          free := DreamLuckin.c9_state.free ++ [DreamLuckin.c9_fresh] } :=
  (C9_release_amended (Except.ok DreamLuckin.c9_fresh) DreamLuckin.c9_state
      DreamLuckin.c9_conn rfl rfl
      (fun n hn => by
        injection hn with hn2
        subst hn2
        decide)
      (by decide)).2 (by decide) DreamLuckin.c9_fresh rfl

/-- C10: contact resolution fails fatally with `ContactNotFoundError`
(carrying the configured target names) exactly when the lookup-store query
returns zero rows; when at least one row comes back, the run proceeds with
a mapping built only from the returned rows, and the unresolved targets
are merely collected for warning logs. -/
theorem C10_contact_resolution (md5hex : String → String)
    (target_value : List String) (contact_result : List DreamLuckin.ContactRow) :
    (DreamLuckin.associate_mapping md5hex target_value contact_result
        = Except.error (DreamLuckin.PyError.contactNotFound target_value)
      ↔ contact_result = []) ∧
    (contact_result ≠ [] →
      ∃ m, DreamLuckin.associate_mapping md5hex target_value contact_result
          = Except.ok (m,
              DreamLuckin.unmatched_config_values target_value contact_result)
        ∧ ∀ p ∈ m, ∃ row ∈ contact_result,
            p = DreamLuckin.mk_contact_entry md5hex row) := by
  constructor
  · constructor
    · intro h
      by_contra hne
      unfold DreamLuckin.associate_mapping at h
      rw [if_neg (by simpa [List.length_eq_zero] using hne)] at h
      cases h
    · intro h
      subst h
      rfl
  · intro hne
    unfold DreamLuckin.associate_mapping
    rw [if_neg (by simpa [List.length_eq_zero] using hne)]
    refine ⟨_, rfl, ?_⟩
    intro p hp
    rcases DreamLuckin.associate_fold_mem md5hex contact_result [] p hp
      with hmem | hex
    · cases hmem
    · exact hex

/-- Witness for C10: the query returns the single row for "Alice" while
the second configured target "Bob" stays unresolved — the run proceeds
with the mapping built from that row. -/
theorem C10_contact_resolution_witness :
    ∃ m, DreamLuckin.associate_mapping (fun s => s) ["Alice", "Bob"]
          [DreamLuckin.c10_row]
        = Except.ok (m, DreamLuckin.unmatched_config_values ["Alice", "Bob"]
            [DreamLuckin.c10_row])
      ∧ ∀ p ∈ m, ∃ row ∈ [DreamLuckin.c10_row],
          p = DreamLuckin.mk_contact_entry (fun s => s) row :=
  (C10_contact_resolution (fun s => s) ["Alice", "Bob"]
      [DreamLuckin.c10_row]).2 (List.cons_ne_nil _ _)
